import Mathlib

/-!
Verification development for the MetOncoFit evaluation harness
(`metoncofit/validator.py` and `src/classifiers/trees.py`).

The Python source is shallowly embedded below: the stochastic collaborators
(`DataPreparation.processDataFromFile` producing a train/test split, and the
trained classifier producing predictions on the test set) are abstracted as
explicit inputs, and each loop of the source is embedded as a structurally
recursive function whose fuel argument strictly exceeds the number of loop
iterations the guard permits, so that the guard — not the fuel — determines
the result.
-/

namespace MetOncoFit

/-! ## Confusion-matrix trial loop (`validator.py`, `computeConfusionMatrix`) -/

/-- Class labels.  The label alphabet has exactly 3 values
(`GAIN/NEUT/LOSS` or `UPREG/NEUTRAL/DOWNREG`), encoded as `Fin 3`. -/
abbrev Label := Fin 3

/-- A confusion matrix: cell `(i, j)` counts test examples with true label `i`
and predicted label `j`. -/
abbrev CMatrix := Fin 3 → Fin 3 → ℕ

/-- `sklearn.metrics.confusion_matrix(Ytest, Ypred)` over the fixed 3-label
alphabet: one trial's test results are the list of
(true label, predicted label) pairs. -/
def confusion_matrix (pairs : List (Label × Label)) : CMatrix :=
  fun i j => (pairs.filter (fun p => p.1 == i && p.2 == j)).length

/-- `matrix.sum(axis=1)` at row `i`. -/
def rowSum (m : CMatrix) (i : Fin 3) : ℕ := ∑ j, m i j

/-- Total count over all cells of the matrix. -/
def totalCells (m : CMatrix) : ℕ := ∑ i, rowSum m i

/-- Row sum of an accumulator that may still be uninitialized. -/
def rowSumO (m : Option CMatrix) (i : Fin 3) : ℕ :=
  match m with
  | none => 0
  | some M => rowSum M i

/-- Total cell count of an accumulator that may still be uninitialized. -/
def totalCellsO (m : Option CMatrix) : ℕ :=
  match m with
  | none => 0
  | some M => totalCells M

/-- The body of the accumulation in `computeConfusionMatrix`
(validator.py lines 42-45):

    if count is 0:
        matrix = confusion_matrix(Ytest, Ypred)
    elif count > 1:
        matrix = np.add(matrix, confusion_matrix(Ytest, Ypred))

Before the first assignment the Python variable `matrix` is unbound, which we
model as `none`.  Note that neither branch fires when `count == 1`. -/
def ccmStep (m : Option CMatrix) (count : ℕ) (pairs : List (Label × Label)) :
    Option CMatrix :=
  if count = 0 then some (confusion_matrix pairs)
  else if 1 < count then m.map (fun M i j => M i j + confusion_matrix pairs i j)
  else m

/-- The trial loop of `computeConfusionMatrix` (validator.py lines 38-46):

    count = 0
    while (count <= iterations):
        <fresh split; train; predict>   # one train/evaluate trial
        <accumulate per ccmStep>
        count += 1

`trials k` is the (true label, predicted label) list produced by the trial
executed at `count = k` (the fresh split and the classifier are stochastic
collaborators, abstracted as this input).  The second component of the result
counts how many train/evaluate trials the loop performed.  The fuel is
structural; the caller passes `iterations + 2`, strictly more than the
`iterations + 1` iterations the guard allows, so the guard decides the exit. -/
def ccmGo (trials : ℕ → List (Label × Label)) (iterations : ℕ) :
    ℕ → ℕ → Option CMatrix → ℕ → Option CMatrix × ℕ
  | 0, _, m, executed => (m, executed)
  | fuel + 1, count, m, executed =>
    if count ≤ iterations then
      ccmGo trials iterations fuel (count + 1) (ccmStep m count (trials count)) (executed + 1)
    else (m, executed)

/-- `computeConfusionMatrix(filename, target, exclude, iterations)`:
the accumulated raw matrix, paired with the number of train/evaluate trials
executed. -/
def computeConfusionMatrix (trials : ℕ → List (Label × Label))
    (iterations : ℕ) : Option CMatrix × ℕ :=
  ccmGo trials iterations (iterations + 2) 0 none 0

/-- The number of test examples with true label `l` across the first `n`
trials (`trials 0 .. trials (n-1)`). -/
def trueLabelCount (trials : ℕ → List (Label × Label)) (n : ℕ) (l : Label) : ℕ :=
  ∑ k ∈ Finset.range n, ((trials k).filter (fun p => p.1 == l)).length

/-- `matrix.astype('float') / matrix.sum(axis=1)[:, np.newaxis]`
(validator.py line 47).  Cell `(i, j)` is divided by the sum of row `i`.
A row with sum `0` has every cell equal to `0` (the matrix holds counts), so
each of its entries is the float `0.0/0.0 = NaN`, modelled as `none`; a row
with nonzero sum divides exactly. -/
def normalizedMatrix (m : CMatrix) (i j : Fin 3) : Option ℚ :=
  if rowSum m i = 0 then none
  else some ((m i j : ℚ) / (rowSum m i : ℚ))

/-- NaN-propagating sum of one normalized row (a float sum is `NaN` as soon as
one addend is `NaN`). -/
def optRowSum (f : Fin 3 → Option ℚ) : Option ℚ :=
  (f 0).bind fun a => (f 1).bind fun b => (f 2).bind fun c => some (a + b + c)

/-! ## P-value floor (`validator.py`, `Summarize`, lines 118-120) -/

/-- The literal `1E-50` from validator.py line 119. -/
def pFloor : ℚ := 1 / 10 ^ 50

/-- `Summarize`'s treatment of the p-value returned by
`scipy.stats.ttest_1samp(Summary['Accuracy'], mu)` (validator.py lines
119-120):

    if pvalue < 1E-50:
        pvalue = 1E-50

The reported p-value as a function of the computed one. -/
def summarizePValue (pvalue : ℚ) : ℚ :=
  if pvalue < pFloor then pFloor else pvalue

/-! ## `PearsonCorrelation` (`validator.py`, lines 145-167) -/

/-- A Python value passed to `scipy.stats.pearsonr`: either a scalar float or
a sequence of floats. -/
inductive PyObj where
  | float (x : ℚ)
  | seq (xs : List ℚ)
deriving DecidableEq

/-- Insert `x` into an already ascending list, keeping it ascending. -/
def insertSorted (x : ℚ) : List ℚ → List ℚ
  | [] => [x]
  | y :: ys => if x ≤ y then x :: y :: ys else y :: insertSorted x ys

/-- Insertion sort, ascending. -/
def sortAsc : List ℚ → List ℚ
  | [] => []
  | x :: xs => insertSorted x (sortAsc xs)

/-- `pandas.Series.median()`: the middle element of the sorted values for odd
length, the average of the two middle elements for even length.  (An empty
column would give the float NaN; the value returned here for `[]` is a
modelling default that no result below depends on.) -/
def medianQ (xs : List ℚ) : ℚ :=
  let s := sortAsc xs
  let n := s.length
  if n = 0 then 0
  else if n % 2 = 1 then s.getD (n / 2) 0
  else (s.getD (n / 2 - 1) 0 + s.getD (n / 2) 0) / 2

/-- Mean of a list of rationals. -/
def meanQ (xs : List ℚ) : ℚ := xs.sum / xs.length

/-- Sum of squared deviations from the mean (the numerator of the variance). -/
def devSqSum (xs : List ℚ) : ℚ :=
  (xs.map fun a => (a - meanQ xs) ^ 2).sum

/-- Sum of products of deviations (the numerator of the covariance). -/
def devProdSum (xs ys : List ℚ) : ℚ :=
  ((xs.zip ys).map fun p => (p.1 - meanQ xs) * (p.2 - meanQ ys)).sum

/-- Outcome of a well-typed Pearson correlation: `nanOutcome` when an input
has zero variance (scipy returns the float NaN), otherwise the exact value
`num / Real.sqrt denSq` with `denSq > 0`, represented by the rational pair
`(num, denSq)` to stay computable (the square root itself is irrational in
general). -/
inductive PearsonOutcome where
  | nanOutcome
  | value (num : ℚ) (denSq : ℚ)
deriving DecidableEq

/-- `scipy.stats.pearsonr(x, y)`: requires two same-length sequences of at
least 2 elements; calling it with a scalar raises `TypeError` before any
computation (a float has no `len`).  On valid sequence inputs it returns the
correlation, which is NaN when either input has zero variance. -/
def pearsonr (x y : PyObj) : Except String PearsonOutcome :=
  match x, y with
  | .seq xs, .seq ys =>
    if xs.length ≠ ys.length then
      .error "ValueError: x and y must have the same length."
    else if xs.length < 2 then
      .error "ValueError: x and y must have length at least 2."
    else if devSqSum xs = 0 ∨ devSqSum ys = 0 then .ok .nanOutcome
    else .ok (.value (devProdSum xs ys) (devSqSum xs * devSqSum ys))
  | _, _ => .error "TypeError: object of type float has no len()"

/-- The per-column body of `PearsonCorrelation` (validator.py lines 155-162):

    median = df[col].median()
    gradient = [1.0, 0.0, -1.0]
    correlation = pearsonr(median, gradient)
    if np.isnan(correlation) != True:
        corr[col] = correlation
    else:
        corr[col] = 0.0

`values` are the entries of column `col`.  `median` is a scalar float, so the
`pearsonr` call is made with a scalar first argument; an exception propagates
out of `PearsonCorrelation` (there is no try/except), modelled by `.error`.
The NaN-policy branch stores exactly `0.0`, represented as
`.value 0 1` (that is, `0 / Real.sqrt 1 = 0`). -/
def pearsonCorrColumn (values : List ℚ) : Except String PearsonOutcome :=
  match pearsonr (PyObj.float (medianQ values)) (PyObj.seq [1, 0, -1]) with
  | .error e => .error e
  | .ok .nanOutcome => .ok (.value 0 1)
  | .ok r => .ok r

/-! ## Ablation sweep (`validator.py`, `leave_one_feat_out` lines 259-270 and
`leave_one_cell_out` lines 321-332 — the two functions contain the identical
loop skeleton):

    feat = (data.shape[1]-10)
    while(feat < data.shape[1]-1):
        trees = 5
        while(trees <= 500):
            rfc = RandomForestClassifier(n_estimators=trees, max_features=feat)
            rfc.fit(data, classes)
            trees = trees + 1500
        feat = feat + 20
        rfc_pred = rfc.predict(orig_data)
        mean_acc = rfc.score(orig_data, orig_classes)
        output.append([.., .., .., mean_acc])

`F` stands for `data.shape[1]` (the total feature count); the held-out
accuracy of the ensemble fitted with `max_features = f` and
`n_estimators = t` is abstracted as `score f t`. -/

/-- The feature-count values visited by the outer `while(feat < F-1)` loop,
starting from the caller's initial value `feat` and stepping by 20. -/
def featSweepGo (F : ℤ) : ℕ → ℤ → List ℤ
  | 0, _ => []
  | fuel + 1, feat =>
    if feat < F - 1 then feat :: featSweepGo F fuel (feat + 20) else []

/-- The tree-count values visited by the inner `while(trees <= 500)` loop,
starting from the caller's initial value `trees` and stepping by 1500. -/
def treeSweepGo : ℕ → ℤ → List ℤ
  | 0, _ => []
  | fuel + 1, trees =>
    if trees ≤ 500 then trees :: treeSweepGo fuel (trees + 1500) else []

/-- The inner tree loop's effect on the Python variable `rfc`: each pass
rebinds `rfc` to the ensemble fitted with the current
`(max_features, n_estimators)` pair.  `rfc` is unbound before the first fit
(`none`). -/
def innerFitGo : ℕ → ℤ → ℤ → Option (ℤ × ℤ) → Option (ℤ × ℤ)
  | 0, _, _, rfc => rfc
  | fuel + 1, feat, trees, rfc =>
    if trees ≤ 500 then innerFitGo fuel feat (trees + 1500) (some (feat, trees))
    else rfc

/-- The full sweep: per outer iteration, run the inner tree loop, advance
`feat`, then score the most recently fitted ensemble `rfc` on the held-out
partition and append that accuracy.  Each appended entry is therefore the
accuracy of the *last* grid point fitted for that feature count
(`none` would be a `NameError`: `rfc` never bound). -/
def sweepGo (score : ℤ → ℤ → ℚ) (F : ℤ) : ℕ → ℤ → Option (ℤ × ℤ) → List (Option ℚ)
  | 0, _, _ => []
  | fuel + 1, feat, rfc =>
    if feat < F - 1 then
      let rfc2 := innerFitGo (fuel + 1) feat 5 rfc
      (rfc2.map fun m => score m.1 m.2) :: sweepGo score F fuel (feat + 20) rfc2
    else []

/-! ## Cell-line filtering (`validator.py`, `leave_one_cell_out` lines
304-315) -/

/-- One row of the working dataframe `df2`: its `'Cell Line'` tag (a string,
kept as a character list) and an identifier standing for the rest of the
row's payload. -/
structure CellRow where
  cellLine : List Char
  idx : ℕ
deriving DecidableEq

/-- `pat` is a prefixing match of `s`: the characters of `pat` appear at the
start of `s`. -/
def startsWithChars (pat s : List Char) : Bool :=
  match pat, s with
  | [], _ => true
  | _ :: _, [] => false
  | p :: ps, c :: cs => p == c && startsWithChars ps cs

/-- Substring containment, the semantics of
`pandas.Series.str.contains(str(cell))` for a pattern free of regex
metacharacters (cell-line names): `pat` occurs contiguously inside `s`. -/
def hasSub (pat : List Char) : List Char → Bool
  | [] => startsWithChars pat []
  | c :: cs => startsWithChars pat (c :: cs) || hasSub pat cs

/-- `new_df = df2[~df2["Cell Line"].str.contains(str(cell))]`
(validator.py line 307): the working data for held-out cell line `cell`
keeps exactly the rows whose `'Cell Line'` value does not contain
`str(cell)` as a substring. -/
def locoNewDf (df2 : List CellRow) (cell : List Char) : List CellRow :=
  df2.filter fun r => !(hasSub cell r.cellLine)

/-! ## Global random generator threading (`trees.py`,
`randomForestClassification`, and `validator.py`, `Summarize` lines 92-95) -/

/-- The state of the process-wide NumPy generator `np.random`: the seed it
was last seeded with, and how many draws have been consumed since. -/
structure Rng where
  seed : ℕ
  offset : ℕ
deriving DecidableEq

/-- `np.random.seed(0)` (trees.py line 42): the freshly seeded global state. -/
def npSeedZero : Rng := ⟨0, 0⟩

/-- The effect of one `randomForestClassification` call on the global NumPy
generator (trees.py lines 41-59): `np.random.seed(0)` replaces the state, and
the subsequent forest fitting does not advance it — the classifier is
constructed with `random_state=True` (the integer seed 1), so bootstrap draws
and feature subsampling use the estimator's private generator, and
`cross_val_score(..., cv=10)` uses an unshuffled `KFold`.  The state left
behind is therefore the freshly seeded one, whatever state was passed in. -/
def randomForestRngEffect (_ : Rng) : Rng := npSeedZero

/-- Modelled from the spec: `DataPreparation.processDataFromFile` (the Data
Preparation collaborator, not under src/) returns a fresh random train/test
split each trial; the split is a deterministic function of the shared global
NumPy generator state, which it advances — the default randomness source of
sklearn's splitter.  It is abstracted as a parameter
`splitFn : Rng → σ × Rng` (the split produced, and the advanced state). -/
def summarizeSplitsGo {σ : Type} (splitFn : Rng → σ × Rng) (iterations : ℕ) :
    ℕ → ℕ → Rng → List σ
  | 0, _, _ => []
  | fuel + 1, count, g =>
    if count ≤ iterations then
      let s := splitFn g
      s.1 :: summarizeSplitsGo splitFn iterations fuel (count + 1)
        (randomForestRngEffect s.2)
    else []

/-- The trial loop of `Summarize` (validator.py lines 92-95), projected onto
the train/test splits it consumes:

    count = 0
    while(count <= iterations):
        Xtrain, Xtest, Ytrain, Ytest = DataPreparation.processDataFromFile(...)
        _, Ypred, OOBAccuracy, CVAccuracy = Classifier.random_forest(...)
        ...
        count += 1

starting from global generator state `g0`; returns the list of splits the
successive trials receive. -/
def summarizeSplits {σ : Type} (splitFn : Rng → σ × Rng) (g0 : Rng)
    (iterations : ℕ) : List σ :=
  summarizeSplitsGo splitFn iterations (iterations + 2) 0 g0

/-! ## Concrete example inputs used by the witnesses and the evaluations at
failing inputs -/

/-- A trial source whose every trial has a single test example with true
label 0 predicted as 0 (test-set size 1). -/
def constTrial : ℕ → List (Label × Label) := fun _ => [(0, 0)]

/-- Trial source processing the two distinct trials `[(0,0)]` then
`[(1,1)]` in that order (only indices 0 and 1 are consumed when
`iterations = 1`). -/
def trialsAB : ℕ → List (Label × Label) :=
  fun k => if k = 0 then [(0, 0)] else [(1, 1)]

/-- The same two trials processed in the opposite order. -/
def trialsBA : ℕ → List (Label × Label) :=
  fun k => if k = 0 then [(1, 1)] else [(0, 0)]

/-- An accumulated matrix with row 0 equal to `(1, 1, 1)` (nonzero sum) and
rows 1 and 2 zero. -/
def mEx4 : CMatrix := fun i _ => if i = 0 then 1 else 0

/-- A row tagged with cell line `"a"`. -/
def rowA : CellRow := ⟨['a'], 0⟩

/-- A row tagged with cell line `"b"`. -/
def rowB : CellRow := ⟨['b'], 1⟩

/-- A row tagged with the *different* cell line `"xa"`, whose name contains
`"a"` as a substring. -/
def rowXA : CellRow := ⟨['x', 'a'], 2⟩

/-- Example working dataframe for `leave_one_cell_out`. -/
def dfEx : List CellRow := [rowA, rowB, rowXA]

/-- A concrete deterministic splitter state-transition: the split produced is
a number identifying the generator state it was drawn from, and the state
advances by one draw. -/
def splitFnEx : Rng → ℕ × Rng :=
  fun g => (g.seed * 100 + g.offset + 1, ⟨g.seed, g.offset + 1⟩)

/-! ## Helper lemmas -/

/-- Matching a character list against itself always succeeds. -/
theorem startsWithChars_self (l : List Char) : startsWithChars l l = true := by
  induction l with
  | nil => rfl
  | cons c cs ih => simp [startsWithChars, ih]

/-- Every string contains itself as a substring. -/
theorem hasSub_self (l : List Char) : hasSub l l = true := by
  cases l with
  | nil => rfl
  | cons c cs => simp [hasSub, startsWithChars_self]

/-- One-step unfolding of `summarizeSplitsGo`. -/
theorem summarizeSplitsGo_succ {σ : Type} (splitFn : Rng → σ × Rng)
    (iterations fuel count : ℕ) (g : Rng) :
    summarizeSplitsGo splitFn iterations (fuel + 1) count g =
      if count ≤ iterations then
        (splitFn g).1 :: summarizeSplitsGo splitFn iterations fuel (count + 1)
          (randomForestRngEffect (splitFn g).2)
      else [] := rfl

/-- One-step unfolding of `featSweepGo`. -/
theorem featSweepGo_succ (F : ℤ) (fuel : ℕ) (feat : ℤ) :
    featSweepGo F (fuel + 1) feat =
      if feat < F - 1 then feat :: featSweepGo F fuel (feat + 20) else [] := rfl

/-- One-step unfolding of `treeSweepGo`. -/
theorem treeSweepGo_succ (fuel : ℕ) (trees : ℤ) :
    treeSweepGo (fuel + 1) trees =
      if trees ≤ 500 then trees :: treeSweepGo fuel (trees + 1500) else [] := rfl

/-- One-step unfolding of `innerFitGo`. -/
theorem innerFitGo_succ (fuel : ℕ) (feat trees : ℤ) (rfc : Option (ℤ × ℤ)) :
    innerFitGo (fuel + 1) feat trees rfc =
      if trees ≤ 500 then innerFitGo fuel feat (trees + 1500) (some (feat, trees))
      else rfc := rfl

/-- One-step unfolding of `sweepGo`. -/
theorem sweepGo_succ (score : ℤ → ℤ → ℚ) (F : ℤ) (fuel : ℕ) (feat : ℤ)
    (rfc : Option (ℤ × ℤ)) :
    sweepGo score F (fuel + 1) feat rfc =
      if feat < F - 1 then
        (innerFitGo (fuel + 1) feat 5 rfc).map (fun m => score m.1 m.2) ::
          sweepGo score F fuel (feat + 20) (innerFitGo (fuel + 1) feat 5 rfc)
      else [] := rfl

/-- Once the outer guard `feat < F - 1` is false, the feature loop visits
nothing, whatever fuel remains. -/
theorem featSweepGo_stop (F : ℤ) (fuel : ℕ) (feat : ℤ) (h : ¬ feat < F - 1) :
    featSweepGo F fuel feat = [] := by
  cases fuel <;> simp [featSweepGo, h]

/-- Once the inner guard `trees <= 500` is false, the tree loop visits
nothing, whatever fuel remains. -/
theorem treeSweepGo_stop (fuel : ℕ) (t : ℤ) (h : ¬ t ≤ 500) :
    treeSweepGo fuel t = [] := by
  cases fuel <;> simp [treeSweepGo, h]

/-- Once the inner guard is false, `rfc` keeps its current binding. -/
theorem innerFitGo_stop (fuel : ℕ) (feat t : ℤ) (rfc : Option (ℤ × ℤ))
    (h : ¬ t ≤ 500) : innerFitGo fuel feat t rfc = rfc := by
  cases fuel <;> simp [innerFitGo, h]

/-- Once the outer guard is false, the sweep records nothing further. -/
theorem sweepGo_stop (score : ℤ → ℤ → ℚ) (F : ℤ) (fuel : ℕ) (feat : ℤ)
    (rfc : Option (ℤ × ℤ)) (h : ¬ feat < F - 1) :
    sweepGo score F fuel feat rfc = [] := by
  cases fuel <;> simp [sweepGo, h]

/-- From the freshly seeded state, every remaining trial of the `Summarize`
loop receives the same split: the trainer resets the global generator to the
seed-0 state before the next trial draws. -/
theorem summarizeSplitsGo_const {σ : Type} (splitFn : Rng → σ × Rng)
    (iterations : ℕ) :
    ∀ fuel count, iterations + 1 - count ≤ fuel →
      summarizeSplitsGo splitFn iterations fuel count npSeedZero =
        List.replicate (iterations + 1 - count) (splitFn npSeedZero).1 := by
  intro fuel
  induction fuel with
  | zero =>
    intro count h
    have h0 : iterations + 1 - count = 0 := by omega
    simp [summarizeSplitsGo, h0]
  | succ n ih =>
    intro count h
    by_cases hc : count ≤ iterations
    · have hrep : iterations + 1 - count = (iterations + 1 - (count + 1)) + 1 := by
        omega
      rw [hrep, List.replicate_succ]
      simp only [summarizeSplitsGo, if_pos hc, randomForestRngEffect]
      rw [ih (count + 1) (by omega)]
    · have h0 : iterations + 1 - count = 0 := by omega
      simp [summarizeSplitsGo, hc, h0]

/-- The splits consumed by the `Summarize` trial loop: the first trial draws
from the initial generator state, and every one of the `iterations` later
trials draws from the identical seed-0 state. -/
theorem summarizeSplits_later_trials_equal {σ : Type} (splitFn : Rng → σ × Rng)
    (g0 : Rng) (iterations : ℕ) :
    summarizeSplits splitFn g0 iterations =
      (splitFn g0).1 :: List.replicate iterations (splitFn npSeedZero).1 := by
  unfold summarizeSplits
  rw [show iterations + 2 = (iterations + 1) + 1 by rfl, summarizeSplitsGo_succ,
    if_pos (Nat.zero_le iterations)]
  simp only [randomForestRngEffect]
  rw [summarizeSplitsGo_const splitFn iterations (iterations + 1) (0 + 1) (by omega)]
  simp

/-! ## Claim theorems -/

/-- C1: the claim states that a call with iteration count `N` executes
exactly `N` independent train/evaluate trials, so the accumulated matrix's
total cell count is `N` times the test-set size.  Evaluated at the failing
input `iterations = 50` with test-set size 1 per trial: the loop
`while (count <= iterations)` executes 51 trials, one more than claimed
(while the total cell count is still `50 × 1`, because the `elif count > 1`
accumulation drops exactly one of the 51 per-trial matrices — the one from
the trial at `count = 1`). -/
theorem C1_trials_off_by_one :
    (computeConfusionMatrix constTrial 50).2 = 51 ∧
      totalCellsO (computeConfusionMatrix constTrial 50).1 = 50 * 1 := by
  decide

/-- C2: the claim states that after any number of completed trials, each row
sum of the accumulated matrix equals the number of test examples with that
true label across all trials so far.  Evaluated at the failing input
`iterations = 1` (two completed trials, each contributing one test example
with true label 0): the accumulated row-0 sum is 1, while the number of test
examples with true label 0 across the two trials is 2 — the trial at
`count = 1` matches neither `if count is 0` nor `elif count > 1` and is
silently dropped. -/
theorem C2_skipped_trial_breaks_row_sums :
    rowSumO (computeConfusionMatrix constTrial 1).1 0 = 1 ∧
      trueLabelCount constTrial 2 0 = 2 := by
  decide

/-- C3: the claim states that the accumulated matrix is element-wise
identical under every permutation of the order in which the trials are
processed.  Counter-evaluation: processing the two trials `[(0,0)]`,
`[(1,1)]` (`iterations = 1`) in the two possible orders yields different
matrices — whichever trial lands at `count = 1` is dropped from the
accumulation, so the result depends on the processing order. -/
theorem C3_order_dependent :
    (computeConfusionMatrix trialsAB 1).1 ≠ (computeConfusionMatrix trialsBA 1).1 := by
  decide

/-- C4: after all trials, dividing each row of the accumulated matrix by its
row sum yields a row that sums to exactly 1 whenever the row sum is nonzero,
and a row of NaN (`none`) entries whenever the row sum is zero. -/
theorem C4_row_stochastic_normalization (m : CMatrix) (i : Fin 3) :
    (rowSum m i ≠ 0 → optRowSum (normalizedMatrix m i) = some 1) ∧
      (rowSum m i = 0 → ∀ j, normalizedMatrix m i j = none) := by
  constructor
  · intro h
    have hs : ((rowSum m i : ℚ)) ≠ 0 := Nat.cast_ne_zero.mpr h
    have h3 : ((m i 0 : ℚ)) + (m i 1 : ℚ) + (m i 2 : ℚ) = ((rowSum m i : ℚ)) := by
      rw [rowSum, Fin.sum_univ_three]
      push_cast
      ring
    simp only [optRowSum, normalizedMatrix, if_neg h, Option.bind_some,
      Option.some_bind]
    rw [div_add_div_same, div_add_div_same, h3, div_self hs]
  · intro h j
    simp [normalizedMatrix, h]

/-- Witness for C4 at the concrete matrix `mEx4`: row 0 (sum 3) normalizes to
a row summing to 1, and row 1 (sum 0) has NaN entries. -/
theorem C4_witness :
    optRowSum (normalizedMatrix mEx4 0) = some 1 ∧
      normalizedMatrix mEx4 1 0 = none :=
  ⟨(C4_row_stochastic_normalization mEx4 0).1 (by decide),
   (C4_row_stochastic_normalization mEx4 1).2 (by decide) 0⟩

/-- C5: whenever the t-test's p-value is below `1e-50` the reported value is
exactly `1e-50`, and every p-value at or above `1e-50` is reported
unchanged. -/
theorem C5_pvalue_floor (p : ℚ) :
    (p < pFloor → summarizePValue p = pFloor) ∧
      (pFloor ≤ p → summarizePValue p = p) := by
  constructor
  · intro h
    simp [summarizePValue, h]
  · intro h
    simp [summarizePValue, not_lt.mpr h]

/-- Witness for C5: a p-value of `1e-51` is reported as the floor, and a
p-value of `1/2` is reported unchanged. -/
theorem C5_witness :
    summarizePValue (1 / 10 ^ 51) = pFloor ∧ summarizePValue (1 / 2) = 1 / 2 :=
  ⟨(C5_pvalue_floor (1 / 10 ^ 51)).1 (by norm_num [pFloor]),
   (C5_pvalue_floor (1 / 2)).2 (by norm_num [pFloor])⟩

/-- C6: the claim states that a feature whose correlation is NaN is reported
as exactly `0.0`.  Evaluating the code: for *every* feature column — in
particular a zero-variance one — the per-column body of `PearsonCorrelation`
raises `TypeError` inside `scipy.stats.pearsonr`, because the first argument
`df[col].median()` is a scalar, not a sequence; the NaN-to-`0.0` branch is
never reached and no correlation of any kind is reported. -/
theorem C6_pearsonr_scalar_raises (values : List ℚ) :
    pearsonCorrColumn values =
      .error "TypeError: object of type float has no len()" := rfl

/-- C7: in both ablation modes, for every total feature count `F` the outer
sweep visits exactly the single feature count `F - 10` (start `F - 10`, step
20, guard `< F - 1`), the inner tree loop visits exactly the single tree
count 5 (start 5, step 1500, guard `<= 500`) so one ensemble is fitted per
feature count, and the accuracy recorded for that feature count is that of
the last (here: only) grid point `(F - 10, 5)` — not a best-over-grid
selection.  Stated for every fuel margin `fuel + 2` to show the loop guards,
not the fuel, determine the result. -/
theorem C7_single_grid_point (score : ℤ → ℤ → ℚ) (F : ℤ) (fuel : ℕ) :
    featSweepGo F (fuel + 2) (F - 10) = [F - 10] ∧
      treeSweepGo (fuel + 2) 5 = [5] ∧
      sweepGo score F (fuel + 2) (F - 10) none = [some (score (F - 10) 5)] := by
  have h1 : F - 10 < F - 1 := by omega
  have h2 : ¬ (F - 10 + 20 < F - 1) := by omega
  have h5 : (5 : ℤ) ≤ 500 := by norm_num
  have h1505 : ¬ ((5 : ℤ) + 1500 ≤ 500) := by norm_num
  refine ⟨?_, ?_, ?_⟩
  · rw [featSweepGo_succ, if_pos h1,
      featSweepGo_stop F (fuel + 1) (F - 10 + 20) h2]
  · rw [treeSweepGo_succ, if_pos h5, treeSweepGo_stop (fuel + 1) (5 + 1500) h1505]
  · rw [show fuel + 2 = (fuel + 1) + 1 by rfl, sweepGo_succ, if_pos h1,
      innerFitGo_succ, if_pos h5,
      innerFitGo_stop (fuel + 1) (F - 10) (5 + 1500) (some (F - 10, 5)) h1505,
      sweepGo_stop score F (fuel + 1) (F - 10 + 20) (some (F - 10, 5)) h2]
    rfl

/-- C8: for every held-out cell-line group, no row tagged with that cell line
appears in the training partition or the evaluation partition: both
partitions are drawn (by `train_test_split`) from the filtered working data,
which excludes every row whose `'Cell Line'` contains the held-out name — in
particular every row tagged exactly with it. -/
theorem C8_group_rows_absent (df2 : List CellRow) (cell : List Char)
    (train holdout : List CellRow)
    (htrain : ∀ r ∈ train, r ∈ locoNewDf df2 cell)
    (hhold : ∀ r ∈ holdout, r ∈ locoNewDf df2 cell) :
    ∀ r : CellRow, r.cellLine = cell → r ∉ train ∧ r ∉ holdout := by
  intro r hr
  have key : r ∉ locoNewDf df2 cell := by
    intro hm
    have h2 := (List.mem_filter.mp hm).2
    rw [hr, hasSub_self] at h2
    simp at h2
  exact ⟨fun hm => key (htrain r hm), fun hm => key (hhold r hm)⟩

/-- Witness for C8: with working data `dfEx` and held-out cell line `"a"`,
the filtered data is `[rowB]`; taking `train = [rowB]` and an empty
evaluation partition, the row tagged `"a"` is in neither. -/
theorem C8_witness : rowA ∉ [rowB] ∧ rowA ∉ ([] : List CellRow) :=
  C8_group_rows_absent dfEx ['a'] [rowB] [] (by decide) (by decide) rowA rfl

/-- C9: the claim states that the trainer's internal randomness is
fixed-seeded while the outer loop's split randomness still varies across
trials.  Evaluated at the failing input (generator initially at state
`⟨7, 0⟩`, `iterations = 3`): the four executed trials receive the splits
`[701, 1, 1, 1]` — the first trial draws from the initial state, and every
later trial draws from the identical seed-0 state left behind by
`np.random.seed(0)` inside `randomForestClassification`, so trials 2, 3 and
4 receive the same split. -/
theorem C9_identical_splits :
    summarizeSplits splitFnEx ⟨7, 0⟩ 3 = [701, 1, 1, 1] := rfl

/-- C10: exclusion of the held-out group is by substring containment: every
row of the working data whose `'Cell Line'` value contains the held-out name
as a substring — even a row tagged with a *different* cell line — is removed
from the filtered data, hence from every training and evaluation partition
drawn from it. -/
theorem C10_substring_exclusion (df2 : List CellRow) (cell : List Char)
    (r : CellRow) (_hmem : r ∈ df2) (hsub : hasSub cell r.cellLine = true) :
    r ∉ locoNewDf df2 cell ∧
      ∀ train holdout : List CellRow,
        (∀ x ∈ train, x ∈ locoNewDf df2 cell) →
        (∀ x ∈ holdout, x ∈ locoNewDf df2 cell) →
        r ∉ train ∧ r ∉ holdout := by
  have key : r ∉ locoNewDf df2 cell := by
    intro hm
    have h2 := (List.mem_filter.mp hm).2
    rw [hsub] at h2
    simp at h2
  exact ⟨key, fun train holdout ht hh =>
    ⟨fun hm => key (ht r hm), fun hm => key (hh r hm)⟩⟩

/-- Witness for C10: the row tagged `"xa"` — a different cell line whose name
contains the held-out name `"a"` — is excluded from the working data for
group `"a"`. -/
theorem C10_witness :
    rowXA ∉ locoNewDf dfEx ['a'] ∧ rowXA.cellLine ≠ ['a'] :=
  ⟨(C10_substring_exclusion dfEx ['a'] rowXA (by decide) (by decide)).1,
   by decide⟩

end MetOncoFit
